import Mathlib

/-!
Verification of the connection-supervisor logic of `app/bot/handlers/loader.py`
(the somonservice bot loader).  The Python module is shallowly embedded:

* `classifyError` embeds the except-branch keyword classification of
  `start_bot` (loader.py lines 139-154): the `if any(keyword in ...)` chain.
* `load_handlers` outcomes, polling outcomes and classified exceptions are
  abstracted as a `Behavior`: for each attempt number, what the collaborators
  do at that attempt (handler registration success, and how
  `executor.start_polling` ends).
* `runAux` embeds the `for attempt in range(max_retries)` loop of `start_bot`
  (lines 98-164), producing the list of observable events (handler-load calls,
  polling starts, backoff sleeps) and the terminal branch through which the
  loop ends.
* `on_shutdown` embeds the shutdown hook (lines 88-96), `test_bot` the
  connectivity self-test (lines 166-175) and `main_run` the `__main__` block
  (lines 177-194).
-/

/-- Character-list prefix test: `startsWithL n h` is true when `n` is an
initial segment of `h`.  Used to embed the Python substring operator `in`. -/
def startsWithL : List Char → List Char → Bool
  | [], _ => true
  | _ :: _, [] => false
  | a :: as, b :: bs => a == b && startsWithL as bs

/-- Contiguous-substring test on character lists, embedding the Python
string operator `needle in hay`. -/
def containsSub (needle : List Char) : List Char → Bool
  | [] => needle.isEmpty
  | c :: t => startsWithL needle (c :: t) || containsSub needle t

/-- Embeds `keyword in s.lower()` from loader.py lines 144-147: the haystack
is lowercased character by character, the keyword is used as written. -/
def kwIn (kw s : String) : Bool :=
  containsSub kw.data (s.data.map Char.toLower)

/-- The failure taxonomy of the spec; `classifyError` only ever produces
`Network`, `AuthFailure` or `Unknown`, while `HandlerLoadFailure` is the
class of a `load_handlers` returning `False`. -/
inductive FailureClass where
  | Network
  | AuthFailure
  | HandlerLoadFailure
  | Unknown
deriving DecidableEq, Repr

/-- The transport keyword group of loader.py line 145. -/
def networkKeywords : List String :=
  ["network", "connect", "disconnect", "timeout", "ssl"]

/-- Embeds the except-branch classification of `start_bot`
(loader.py lines 144-154): first the transport keywords are tested against
both the message and the type name, then the authorization keywords are
tested against the message only, otherwise the failure is unknown. -/
def classifyError (errorType errorMsg : String) : FailureClass :=
  if networkKeywords.any (fun kw => kwIn kw errorMsg || kwIn kw errorType) then
    FailureClass.Network
  else if kwIn "forbidden" errorMsg || kwIn "unauthorized" errorMsg then
    FailureClass.AuthFailure
  else
    FailureClass.Unknown

/-- How one `executor.start_polling` call ends at a given attempt:
normal return, `KeyboardInterrupt`, `SystemExit`, or an exception carrying
a type name and a message. -/
inductive PollResult where
  | ok
  | interrupt
  | sysExit
  | exn (errorType errorMsg : String)
deriving DecidableEq, Repr

/-- What the collaborators do at one attempt: whether `load_handlers`
returns `True`, and how polling ends if it is reached. -/
structure AttemptSpec where
  loadOk : Bool
  poll : PollResult
deriving DecidableEq, Repr

/-- A run environment: the collaborator outcome for every attempt number. -/
def Behavior : Type := Nat → AttemptSpec

/-- Observable events of a `start_bot` run: a `load_handlers` call with its
result, a polling start, and a backoff sleep of a given number of seconds. -/
inductive Event where
  | loadAttempt (attempt : Nat) (ok : Bool)
  | pollStart (attempt : Nat)
  | sleep (attempt : Nat) (secs : Nat)
deriving DecidableEq, Repr

/-- The terminal branch through which the `start_bot` loop ends.  The Python
function itself returns `None`; these labels name the distinct `break` sites
(and the fall-through after the loop, reachable only with zero attempts). -/
inductive ExitOutcome where
  | Clean
  | Interrupted
  | SystemExited
  | Fatal
  | RetriesExhausted
  | HandlerLoadExhausted
  | LoopFinished
deriving DecidableEq, Repr

/-- The backoff delay computed at loader.py line 158:
`retry_delay * min(attempt + 1, 3)`. -/
def next_delay (retry_delay attempt : Nat) : Nat :=
  retry_delay * min (attempt + 1) 3

/-- Embeds the retry loop of `start_bot` (loader.py lines 103-164).
`attempt` is the current loop index, `remaining` the number of loop
iterations left (`max_retries - attempt`).  Returns the event trace and the
terminal branch.  Branches, in source order: handler-load failure either
breaks at the last allowed attempt (line 110-112) or continues immediately
(line 113-114, no sleep); successful polling breaks (line 131);
`KeyboardInterrupt` and `SystemExit` break (lines 133-138); a classified
authorization failure breaks (lines 147-150); any other exception sleeps
`next_delay` and retries when `attempt < max_retries - 1` (lines 157-161),
else breaks (lines 162-164). -/
def runAux (b : Behavior) (max_retries retry_delay : Nat) :
    Nat → Nat → List Event × ExitOutcome
  | _, 0 => ([], ExitOutcome.LoopFinished)
  | attempt, remaining + 1 =>
    if (b attempt).loadOk = false then
      if max_retries - 1 ≤ attempt then
        ([Event.loadAttempt attempt false], ExitOutcome.HandlerLoadExhausted)
      else
        let rest := runAux b max_retries retry_delay (attempt + 1) remaining
        (Event.loadAttempt attempt false :: rest.1, rest.2)
    else
      match (b attempt).poll with
      | PollResult.ok =>
        ([Event.loadAttempt attempt true, Event.pollStart attempt],
          ExitOutcome.Clean)
      | PollResult.interrupt =>
        ([Event.loadAttempt attempt true, Event.pollStart attempt],
          ExitOutcome.Interrupted)
      | PollResult.sysExit =>
        ([Event.loadAttempt attempt true, Event.pollStart attempt],
          ExitOutcome.SystemExited)
      | PollResult.exn ty msg =>
        if classifyError ty msg = FailureClass.AuthFailure then
          ([Event.loadAttempt attempt true, Event.pollStart attempt],
            ExitOutcome.Fatal)
        else
          if attempt < max_retries - 1 then
            let rest := runAux b max_retries retry_delay (attempt + 1) remaining
            (Event.loadAttempt attempt true :: Event.pollStart attempt ::
              Event.sleep attempt (next_delay retry_delay attempt) :: rest.1,
              rest.2)
          else
            ([Event.loadAttempt attempt true, Event.pollStart attempt],
              ExitOutcome.RetriesExhausted)

/-- Embeds `start_bot` (loader.py lines 98-164): `max_retries = 10`,
`retry_delay = 10`, loop from attempt 0. -/
def start_bot (b : Behavior) : List Event × ExitOutcome :=
  runAux b 10 10 0 10

/-- The value the Python `start_bot` returns to its caller: the function has
no `return` statement, so every run returns `None`, embedded as `Unit`. -/
def start_bot_return (_ : Behavior) : Unit := ()

/-- Result of the single `bot.get_me()` call of `test_bot`: success with a
username, or an exception carrying a message. -/
inductive GetMeResult where
  | ok (username : String)
  | err (msg : String)
deriving DecidableEq, Repr

/-- Embeds `test_bot` (loader.py lines 166-175): returns `True` on a
successful `get_me`, catches any exception, logs it and returns `False`.
No handler registration and no polling happens here. -/
def test_bot : GetMeResult → Bool
  | GetMeResult.ok _ => true
  | GetMeResult.err _ => false

/-- Embeds the `__main__` block (loader.py lines 177-194): run `test_bot`;
only when it returns `True` is `start_bot` invoked, otherwise only an error
is logged and no supervisor events occur. -/
def main_run (r : GetMeResult) (b : Behavior) : List Event :=
  if test_bot r then (start_bot b).1 else []

/-- The three awaited steps of `on_shutdown` (loader.py lines 92-94). -/
inductive ShutdownStep where
  | storageClose
  | storageWaitClosed
  | botClose
deriving DecidableEq, Repr

/-- Which of the three shutdown steps raise when invoked. -/
structure ShutdownBehavior where
  storageCloseRaises : Bool
  waitClosedRaises : Bool
  botCloseRaises : Bool
deriving DecidableEq, Repr

/-- Embeds `on_shutdown` (loader.py lines 88-96): the three steps run in
order inside a single `try`; the first step that raises aborts the rest and
the single `except` logs the error.  Returns the list of steps actually
invoked and whether an exception was caught and logged.  The function never
propagates an exception, which the total return type reflects. -/
def on_shutdown (sb : ShutdownBehavior) : List ShutdownStep × Bool :=
  if sb.storageCloseRaises then
    ([ShutdownStep.storageClose], true)
  else if sb.waitClosedRaises then
    ([ShutdownStep.storageClose, ShutdownStep.storageWaitClosed], true)
  else if sb.botCloseRaises then
    ([ShutdownStep.storageClose, ShutdownStep.storageWaitClosed,
      ShutdownStep.botClose], true)
  else
    ([ShutdownStep.storageClose, ShutdownStep.storageWaitClosed,
      ShutdownStep.botClose], false)

/-- A transport keyword occurs (case-insensitively) in the message or the
type name. -/
def TransportHit (errorType errorMsg : String) : Prop :=
  ∃ kw ∈ networkKeywords, kwIn kw errorMsg = true ∨ kwIn kw errorType = true

/-- An authorization keyword occurs (case-insensitively) in the message. -/
def AuthHit (errorMsg : String) : Prop :=
  kwIn "forbidden" errorMsg = true ∨ kwIn "unauthorized" errorMsg = true

instance (ty msg : String) : Decidable (TransportHit ty msg) := by
  unfold TransportHit; infer_instance

instance (msg : String) : Decidable (AuthHit msg) := by
  unfold AuthHit; infer_instance

/-- Event recognizer: is this a `load_handlers` call event. -/
def isLoad : Event → Bool
  | Event.loadAttempt _ _ => true
  | _ => false

/-- Event recognizer: is this a polling-start event. -/
def isPoll : Event → Bool
  | Event.pollStart _ => true
  | _ => false

/-- Event recognizer: is this a backoff sleep event. -/
def isSleep : Event → Bool
  | Event.sleep _ _ => true
  | _ => false

/-- Attempt `n` ends in a retryable classified exception: handlers load,
polling raises, and the classification is not an authorization failure. -/
def RetryableAt (b : Behavior) (n : Nat) : Prop :=
  (b n).loadOk = true ∧
    ∃ ty msg, (b n).poll = PollResult.exn ty msg ∧
      classifyError ty msg ≠ FailureClass.AuthFailure

lemma runAux_load_fail_last (b : Behavior) (mr rd attempt k : Nat)
    (h : (b attempt).loadOk = false) (hl : mr - 1 ≤ attempt) :
    runAux b mr rd attempt (k + 1) =
      ([Event.loadAttempt attempt false], ExitOutcome.HandlerLoadExhausted) := by
  simp [runAux, h, hl]

lemma runAux_load_fail_step (b : Behavior) (mr rd attempt k : Nat)
    (h : (b attempt).loadOk = false) (hl : ¬ mr - 1 ≤ attempt) :
    runAux b mr rd attempt (k + 1) =
      (Event.loadAttempt attempt false :: (runAux b mr rd (attempt + 1) k).1,
        (runAux b mr rd (attempt + 1) k).2) := by
  simp [runAux, h, hl]

lemma runAux_poll_ok (b : Behavior) (mr rd attempt k : Nat)
    (h : (b attempt).loadOk = true) (hp : (b attempt).poll = PollResult.ok) :
    runAux b mr rd attempt (k + 1) =
      ([Event.loadAttempt attempt true, Event.pollStart attempt],
        ExitOutcome.Clean) := by
  simp [runAux, h, hp]

lemma runAux_poll_interrupt (b : Behavior) (mr rd attempt k : Nat)
    (h : (b attempt).loadOk = true)
    (hp : (b attempt).poll = PollResult.interrupt) :
    runAux b mr rd attempt (k + 1) =
      ([Event.loadAttempt attempt true, Event.pollStart attempt],
        ExitOutcome.Interrupted) := by
  simp [runAux, h, hp]

lemma runAux_poll_sysExit (b : Behavior) (mr rd attempt k : Nat)
    (h : (b attempt).loadOk = true)
    (hp : (b attempt).poll = PollResult.sysExit) :
    runAux b mr rd attempt (k + 1) =
      ([Event.loadAttempt attempt true, Event.pollStart attempt],
        ExitOutcome.SystemExited) := by
  simp [runAux, h, hp]

lemma runAux_auth (b : Behavior) (mr rd attempt k : Nat) (ty msg : String)
    (h : (b attempt).loadOk = true)
    (hp : (b attempt).poll = PollResult.exn ty msg)
    (hc : classifyError ty msg = FailureClass.AuthFailure) :
    runAux b mr rd attempt (k + 1) =
      ([Event.loadAttempt attempt true, Event.pollStart attempt],
        ExitOutcome.Fatal) := by
  simp [runAux, h, hp, hc]

lemma runAux_retry_step (b : Behavior) (mr rd attempt k : Nat) (ty msg : String)
    (h : (b attempt).loadOk = true)
    (hp : (b attempt).poll = PollResult.exn ty msg)
    (hc : classifyError ty msg ≠ FailureClass.AuthFailure)
    (hlt : attempt < mr - 1) :
    runAux b mr rd attempt (k + 1) =
      (Event.loadAttempt attempt true :: Event.pollStart attempt ::
        Event.sleep attempt (next_delay rd attempt) ::
        (runAux b mr rd (attempt + 1) k).1,
        (runAux b mr rd (attempt + 1) k).2) := by
  simp [runAux, h, hp, hc, hlt]

lemma runAux_retry_last (b : Behavior) (mr rd attempt k : Nat) (ty msg : String)
    (h : (b attempt).loadOk = true)
    (hp : (b attempt).poll = PollResult.exn ty msg)
    (hc : classifyError ty msg ≠ FailureClass.AuthFailure)
    (hlt : ¬ attempt < mr - 1) :
    runAux b mr rd attempt (k + 1) =
      ([Event.loadAttempt attempt true, Event.pollStart attempt],
        ExitOutcome.RetriesExhausted) := by
  simp [runAux, h, hp, hc, hlt]

/-- C1 (counterexample): the claim predicts that an error text containing
both an authorization keyword and a transport keyword is classified
`AuthFailure`; the code classifies the message
"forbidden network error" as `Network`, because the transport group is
tested first. -/
theorem classify_counterexample :
    classifyError "Exception" "forbidden network error" = FailureClass.Network ∧
    FailureClass.Network ≠ FailureClass.AuthFailure := by
  constructor
  · decide
  · decide

/-- C1 (amended): the classifier is total with first match winning, but the
transport keyword group is tested first, against both the message and the
type name, yielding `Network`; the authorization keywords are tested second
and only against the message, yielding `AuthFailure`; everything else is
`Unknown`.  In particular a text containing both an authorization and a
transport keyword is classified `Network`. -/
theorem classify_priority (ty msg : String) :
    (TransportHit ty msg → classifyError ty msg = FailureClass.Network) ∧
    (¬ TransportHit ty msg → AuthHit msg →
      classifyError ty msg = FailureClass.AuthFailure) ∧
    (¬ TransportHit ty msg → ¬ AuthHit msg →
      classifyError ty msg = FailureClass.Unknown) := by
  have hiff : networkKeywords.any (fun kw => kwIn kw msg || kwIn kw ty) = true
      ↔ TransportHit ty msg := by
    rw [List.any_eq_true]
    unfold TransportHit
    constructor
    · rintro ⟨kw, hmem, hor⟩
      exact ⟨kw, hmem, by simpa using hor⟩
    · rintro ⟨kw, hmem, hor⟩
      exact ⟨kw, hmem, by simpa using hor⟩
  refine ⟨?_, ?_, ?_⟩
  · intro h
    rw [classifyError, if_pos (hiff.mpr h)]
  · intro hnt ha
    have hany : ¬ networkKeywords.any (fun kw => kwIn kw msg || kwIn kw ty) = true :=
      fun hc => hnt (hiff.mp hc)
    have hor : (kwIn "forbidden" msg || kwIn "unauthorized" msg) = true := by
      rcases ha with h | h <;> simp [h]
    rw [classifyError, if_neg hany, if_pos hor]
  · intro hnt hna
    have hany : ¬ networkKeywords.any (fun kw => kwIn kw msg || kwIn kw ty) = true :=
      fun hc => hnt (hiff.mp hc)
    have hor : ¬ (kwIn "forbidden" msg || kwIn "unauthorized" msg) = true := by
      intro hc
      rcases Bool.or_eq_true_iff.mp hc with h | h
      · exact hna (Or.inl h)
      · exact hna (Or.inr h)
    rw [classifyError, if_neg hany, if_neg hor]

/-- C1 (witness): the amended classification evaluated at a concrete
transport-keyword message. -/
theorem classify_priority_witness :
    classifyError "Exception" "connection reset" = FailureClass.Network :=
  (classify_priority "Exception" "connection reset").1
    ⟨"connect", by decide, Or.inl (by decide)⟩

/-- C2: a polling failure classified as `AuthFailure` at any attempt number
ends the run at once with the `Fatal` terminal branch: from that attempt on
there are zero backoff sleeps and exactly one handler-load call and one
polling start (the failing ones), hence zero further retries. -/
theorem auth_failure_fatal (b : Behavior) (mr rd attempt k : Nat)
    (ty msg : String)
    (hload : (b attempt).loadOk = true)
    (hpoll : (b attempt).poll = PollResult.exn ty msg)
    (hclass : classifyError ty msg = FailureClass.AuthFailure) :
    (runAux b mr rd attempt (k + 1)).2 = ExitOutcome.Fatal ∧
    (runAux b mr rd attempt (k + 1)).1.countP isSleep = 0 ∧
    (runAux b mr rd attempt (k + 1)).1.countP isLoad = 1 ∧
    (runAux b mr rd attempt (k + 1)).1.countP isPoll = 1 := by
  rw [runAux_auth b mr rd attempt k ty msg hload hpoll hclass]
  refine ⟨rfl, ?_, ?_, ?_⟩ <;> simp [List.countP_cons, isSleep, isLoad, isPoll]

/-- A run in which polling always raises an authorization error. -/
def authBeh : Behavior :=
  fun _ => ⟨true, PollResult.exn "Unauthorized" "unauthorized: invalid token"⟩

/-- C2 (witness): the full ten-attempt run on an authorization failure at
attempt 0. -/
theorem auth_failure_fatal_witness :
    (runAux authBeh 10 10 0 10).2 = ExitOutcome.Fatal ∧
    (runAux authBeh 10 10 0 10).1.countP isSleep = 0 ∧
    (runAux authBeh 10 10 0 10).1.countP isLoad = 1 ∧
    (runAux authBeh 10 10 0 10).1.countP isPoll = 1 :=
  auth_failure_fatal authBeh 10 10 0 9 "Unauthorized" "unauthorized: invalid token"
    rfl rfl (by decide)

/-- C3: when a retryable classified failure occurs at an attempt that is not
the last one, the trace records a backoff sleep of exactly
`retry_delay * min(attempt + 1, 3)` seconds before the next attempt, and the
delay formula is non-decreasing in the attempt number and bounded by
`retry_delay * 3`. -/
theorem backoff_policy (b : Behavior) (mr rd attempt k n m : Nat)
    (ty msg : String)
    (hload : (b attempt).loadOk = true)
    (hpoll : (b attempt).poll = PollResult.exn ty msg)
    (hauth : classifyError ty msg ≠ FailureClass.AuthFailure)
    (hlast : attempt < mr - 1) (hnm : n ≤ m) :
    Event.sleep attempt (rd * min (attempt + 1) 3) ∈
      (runAux b mr rd attempt (k + 1)).1 ∧
    next_delay rd attempt = rd * min (attempt + 1) 3 ∧
    next_delay rd n ≤ next_delay rd m ∧
    next_delay rd attempt ≤ rd * 3 := by
  refine ⟨?_, rfl, ?_, ?_⟩
  · rw [runAux_retry_step b mr rd attempt k ty msg hload hpoll hauth hlast]
    simp [next_delay]
  · exact Nat.mul_le_mul le_rfl (min_le_min (Nat.succ_le_succ hnm) le_rfl)
  · exact Nat.mul_le_mul le_rfl (min_le_right _ _)

/-- A run in which polling always raises a network error. -/
def netBeh : Behavior :=
  fun _ => ⟨true, PollResult.exn "OSError" "network is unreachable"⟩

/-- C3 (witness): the backoff sleep of the first attempt of an
always-network-failing run, with the monotonicity instance 0 ≤ 5. -/
theorem backoff_policy_witness :
    Event.sleep 0 (10 * min (0 + 1) 3) ∈ (runAux netBeh 10 10 0 10).1 ∧
    next_delay 10 0 = 10 * min (0 + 1) 3 ∧
    next_delay 10 0 ≤ next_delay 10 5 ∧
    next_delay 10 0 ≤ 10 * 3 :=
  backoff_policy netBeh 10 10 0 9 0 5 "OSError" "network is unreachable"
    rfl rfl (by decide) (by decide) (by decide)

lemma runAux_skip (b : Behavior) (mr rd : Nat) :
    ∀ (j attempt k : Nat), j ≤ k → attempt + j ≤ mr - 1 →
      (∀ n, attempt ≤ n → n < attempt + j → RetryableAt b n) →
      (runAux b mr rd attempt k).2 = (runAux b mr rd (attempt + j) (k - j)).2 ∧
      (∀ e, e ∈ (runAux b mr rd (attempt + j) (k - j)).1 →
        e ∈ (runAux b mr rd attempt k).1) := by
  intro j
  induction j with
  | zero =>
    intro attempt k _ _ _
    constructor
    · rfl
    · intro e he; exact he
  | succ j ih =>
    intro attempt k hjk hle hret
    obtain ⟨k, rfl⟩ : ∃ m, k = m + 1 := ⟨k - 1, by omega⟩
    obtain ⟨hload, ty, msg, hpoll, hauth⟩ := hret attempt le_rfl (by omega)
    have hlt : attempt < mr - 1 := by omega
    have hstep := runAux_retry_step b mr rd attempt k ty msg hload hpoll hauth hlt
    have hrec := ih (attempt + 1) k (by omega) (by omega)
      (fun n h1 h2 => hret n (by omega) (by omega))
    have e1 : attempt + (j + 1) = attempt + 1 + j := by omega
    have e2 : k + 1 - (j + 1) = k - j := by omega
    rw [hstep, e1, e2]
    refine ⟨hrec.1, ?_⟩
    intro e he
    exact List.mem_cons_of_mem _ (List.mem_cons_of_mem _
      (List.mem_cons_of_mem _ (hrec.2 e he)))

lemma runAux_all_retryable (b : Behavior) (mr rd : Nat) :
    ∀ (k attempt : Nat), attempt + k = mr → 0 < k →
      (∀ n, attempt ≤ n → n < mr → RetryableAt b n) →
      (runAux b mr rd attempt k).2 = ExitOutcome.RetriesExhausted ∧
      (runAux b mr rd attempt k).1.countP isPoll = k := by
  intro k
  induction k with
  | zero =>
    intro attempt _ h _
    exact absurd h (lt_irrefl 0)
  | succ k ih =>
    intro attempt hsum _ hret
    obtain ⟨hload, ty, msg, hpoll, hauth⟩ := hret attempt le_rfl (by omega)
    by_cases hk : k = 0
    · subst hk
      have hlt : ¬ attempt < mr - 1 := by omega
      rw [runAux_retry_last b mr rd attempt 0 ty msg hload hpoll hauth hlt]
      exact ⟨rfl, by simp [List.countP_cons, isPoll]⟩
    · have hlt : attempt < mr - 1 := by omega
      rw [runAux_retry_step b mr rd attempt k ty msg hload hpoll hauth hlt]
      have hrec := ih (attempt + 1) (by omega) (by omega)
        (fun n h1 h2 => hret n (by omega) h2)
      refine ⟨hrec.1, ?_⟩
      simp [List.countP_cons, isPoll, hrec.2]

/-- C4: with the hard-coded `max_retries = 10`: a run whose every attempt
fails with a retryable classified failure ends in the `RetriesExhausted`
branch after exactly ten polling attempts and the loop does not restart;
a run whose first nine attempts fail retryably and whose tenth attempt
loads handlers and polls successfully reaches polling at attempt 9 and ends
in the `Clean` branch. -/
theorem exhaustion_and_recovery (b b2 : Behavior)
    (hb : ∀ n, n < 10 → (b n).loadOk = true ∧
      ∃ ty msg, (b n).poll = PollResult.exn ty msg ∧
        (classifyError ty msg = FailureClass.Network ∨
         classifyError ty msg = FailureClass.Unknown))
    (hb2r : ∀ n, n < 9 → (b2 n).loadOk = true ∧
      ∃ ty msg, (b2 n).poll = PollResult.exn ty msg ∧
        (classifyError ty msg = FailureClass.Network ∨
         classifyError ty msg = FailureClass.Unknown))
    (hb2s : (b2 9).loadOk = true ∧ (b2 9).poll = PollResult.ok) :
    (start_bot b).2 = ExitOutcome.RetriesExhausted ∧
    (start_bot b).1.countP isPoll = 10 ∧
    (start_bot b2).2 = ExitOutcome.Clean ∧
    Event.pollStart 9 ∈ (start_bot b2).1 := by
  have hretry : ∀ n, (0:Nat) ≤ n → n < 10 → RetryableAt b n := by
    intro n _ hn
    obtain ⟨hl, ty, msg, hp, hc⟩ := hb n hn
    refine ⟨hl, ty, msg, hp, ?_⟩
    rcases hc with h | h <;> simp [h]
  have h1 := runAux_all_retryable b 10 10 10 0 (by omega) (by omega)
    (fun n h1 h2 => hretry n (Nat.zero_le n) h2)
  have hretry2 : ∀ n, (0:Nat) ≤ n → n < 0 + 9 → RetryableAt b2 n := by
    intro n _ hn
    obtain ⟨hl, ty, msg, hp, hc⟩ := hb2r n (by omega)
    refine ⟨hl, ty, msg, hp, ?_⟩
    rcases hc with h | h <;> simp [h]
  have h2 := runAux_skip b2 10 10 9 0 10 (by omega) (by omega) hretry2
  have hok : runAux b2 10 10 (0 + 9) (10 - 9) =
      ([Event.loadAttempt 9 true, Event.pollStart 9], ExitOutcome.Clean) := by
    have := runAux_poll_ok b2 10 10 9 0 hb2s.1 hb2s.2
    simpa using this
  refine ⟨h1.1, h1.2, ?_, ?_⟩
  · show (runAux b2 10 10 0 10).2 = ExitOutcome.Clean
    rw [h2.1, hok]
  · show Event.pollStart 9 ∈ (runAux b2 10 10 0 10).1
    refine h2.2 (Event.pollStart 9) ?_
    rw [hok]
    simp

/-- A run which recovers at the tenth attempt after nine timeouts. -/
def recoverBeh : Behavior := fun n =>
  if n < 9 then ⟨true, PollResult.exn "TimeoutError" "request timeout"⟩
  else ⟨true, PollResult.ok⟩

/-- C4 (witness): the always-network-failing run and the tenth-attempt
recovery run, concretely. -/
theorem exhaustion_and_recovery_witness :
    (start_bot netBeh).2 = ExitOutcome.RetriesExhausted ∧
    (start_bot netBeh).1.countP isPoll = 10 ∧
    (start_bot recoverBeh).2 = ExitOutcome.Clean ∧
    Event.pollStart 9 ∈ (start_bot recoverBeh).1 :=
  exhaustion_and_recovery netBeh recoverBeh
    (fun n _ => ⟨rfl, "OSError", "network is unreachable", rfl, Or.inl (by decide)⟩)
    (fun n hn => ⟨by simp [recoverBeh, hn], "TimeoutError", "request timeout",
      by simp [recoverBeh, hn], Or.inl (by decide)⟩)
    ⟨by decide, by decide⟩

/-- A run whose first attempt fails to load handlers and whose second
attempt loads and polls successfully. -/
def loadFailOnceBeh : Behavior := fun n =>
  if n = 0 then ⟨false, PollResult.ok⟩ else ⟨true, PollResult.ok⟩

/-- C5: evaluation of the code at the failing input.  After a handler-load
failure at attempt 0 (not the last attempt), the next attempt begins
immediately: the trace contains no sleep event at all, although the code
logs that it will retry after `retry_delay` seconds (loader.py line 113 is
followed by `continue` with no `time.sleep`). -/
theorem load_fail_no_sleep :
    (start_bot loadFailOnceBeh).1 =
      [Event.loadAttempt 0 false, Event.loadAttempt 1 true,
        Event.pollStart 1] ∧
    (start_bot loadFailOnceBeh).1.countP isSleep = 0 := by
  constructor
  · decide
  · decide

/-- A run in which `load_handlers` fails at every attempt. -/
def loadFailAllBeh : Behavior := fun _ => ⟨false, PollResult.ok⟩

/-- C6 (counterexample): two runs ending through different terminal causes
(handler-load exhaustion at the last attempt versus retryable-failure
exhaustion) return the identical value to the caller, because the Python
`start_bot` has no return statement: the terminal cause is not observable
by the caller as a distinct value. -/
theorem outcome_not_observable :
    (start_bot loadFailAllBeh).2 = ExitOutcome.HandlerLoadExhausted ∧
    (start_bot netBeh).2 = ExitOutcome.RetriesExhausted ∧
    start_bot_return loadFailAllBeh = start_bot_return netBeh := by
  refine ⟨by decide, ?_, rfl⟩
  have h := runAux_all_retryable netBeh 10 10 10 0 (by omega) (by omega)
    (fun n _ _ => ⟨rfl, "OSError", "network is unreachable", rfl, by decide⟩)
  exact h.1

/-- C6 (amended): the loop ends through distinct terminal branches — the
four causes Clean, RetriesExhausted, Fatal and HandlerLoadExhausted are
pairwise distinct labels, and a handler-load failure at the last allowed
attempt ends through the HandlerLoadExhausted branch, not the
RetriesExhausted one — but these causes are distinguishable only in the
logged trace, not in a return value, since the entry point returns None. -/
theorem terminal_branches_distinct (b : Behavior) (mr rd attempt k : Nat)
    (h : (b attempt).loadOk = false) (hlast : mr - 1 ≤ attempt) :
    (runAux b mr rd attempt (k + 1)).2 = ExitOutcome.HandlerLoadExhausted ∧
    ExitOutcome.HandlerLoadExhausted ≠ ExitOutcome.RetriesExhausted ∧
    [ExitOutcome.Clean, ExitOutcome.RetriesExhausted, ExitOutcome.Fatal,
      ExitOutcome.HandlerLoadExhausted].Pairwise (· ≠ ·) := by
  rw [runAux_load_fail_last b mr rd attempt k h hlast]
  exact ⟨rfl, by decide, by decide⟩

/-- C6 (witness): the amended statement at the last attempt of the
always-load-failing run. -/
theorem terminal_branches_distinct_witness :
    (runAux loadFailAllBeh 10 10 9 1).2 = ExitOutcome.HandlerLoadExhausted ∧
    ExitOutcome.HandlerLoadExhausted ≠ ExitOutcome.RetriesExhausted ∧
    [ExitOutcome.Clean, ExitOutcome.RetriesExhausted, ExitOutcome.Fatal,
      ExitOutcome.HandlerLoadExhausted].Pairwise (· ≠ ·) :=
  terminal_branches_distinct loadFailAllBeh 10 10 9 0 rfl (by decide)

lemma pollStart_mem_loadOk (b : Behavior) (mr rd n : Nat) :
    ∀ (k attempt : Nat), Event.pollStart n ∈ (runAux b mr rd attempt k).1 →
      (b n).loadOk = true := by
  intro k
  induction k with
  | zero =>
    intro attempt h
    simp [runAux] at h
  | succ k ih =>
    intro attempt h
    by_cases hl : (b attempt).loadOk = false
    · by_cases hlast : mr - 1 ≤ attempt
      · rw [runAux_load_fail_last b mr rd attempt k hl hlast] at h
        simp at h
      · rw [runAux_load_fail_step b mr rd attempt k hl hlast] at h
        rcases List.mem_cons.mp h with h | h
        · exact absurd h (by simp)
        · exact ih (attempt + 1) h
    · have hl' : (b attempt).loadOk = true := by
        revert hl
        cases (b attempt).loadOk <;> simp
      cases hp : (b attempt).poll with
      | ok =>
        rw [runAux_poll_ok b mr rd attempt k hl' hp] at h
        simp at h
        subst h
        exact hl'
      | interrupt =>
        rw [runAux_poll_interrupt b mr rd attempt k hl' hp] at h
        simp at h
        subst h
        exact hl'
      | sysExit =>
        rw [runAux_poll_sysExit b mr rd attempt k hl' hp] at h
        simp at h
        subst h
        exact hl'
      | exn ty msg =>
        by_cases hc : classifyError ty msg = FailureClass.AuthFailure
        · rw [runAux_auth b mr rd attempt k ty msg hl' hp hc] at h
          simp at h
          subst h
          exact hl'
        · by_cases hlt : attempt < mr - 1
          · rw [runAux_retry_step b mr rd attempt k ty msg hl' hp hc hlt] at h
            simp at h
            rcases h with h | h
            · subst h
              exact hl'
            · exact ih (attempt + 1) h
          · rw [runAux_retry_last b mr rd attempt k ty msg hl' hp hc hlt] at h
            simp at h
            subst h
            exact hl'

/-- C7: in every run, an attempt at which `load_handlers` reports failure
never starts polling: no polling-start event for that attempt number occurs
anywhere in the trace. -/
theorem no_poll_after_load_fail (b : Behavior) (n : Nat)
    (h : (b n).loadOk = false) :
    Event.pollStart n ∉ (start_bot b).1 := by
  intro hmem
  have := pollStart_mem_loadOk b 10 10 n 10 0 hmem
  rw [h] at this
  exact Bool.false_ne_true this

/-- C7 (witness): the run failing to load handlers at attempt 0 never
starts polling at attempt 0. -/
theorem no_poll_after_load_fail_witness :
    Event.pollStart 0 ∉ (start_bot loadFailOnceBeh).1 :=
  no_poll_after_load_fail loadFailOnceBeh 0 rfl

/-- C8: the connectivity self-test returns `True` on a successful identity
check and `False` on any failure (it catches the exception instead of
propagating it, as its total boolean type reflects), and it produces no
handler or polling events; when the `__main__` pre-flight check fails —
for any failing identity check, including an unauthorized one — the main
loop is not entered: the run produces no events at all, in particular zero
handler-load calls and zero polling starts. -/
theorem test_bot_preflight (r : GetMeResult) (b : Behavior) (msg u : String) :
    test_bot (GetMeResult.ok u) = true ∧
    test_bot (GetMeResult.err msg) = false ∧
    (test_bot r = false → main_run r b = []) ∧
    main_run (GetMeResult.err msg) b = [] := by
  refine ⟨rfl, rfl, ?_, ?_⟩
  · intro h
    simp [main_run, h]
  · simp [main_run, test_bot]

/-- C8 (witness): a failing identity check with an unauthorized message
leads to an empty event trace. -/
theorem test_bot_preflight_witness :
    main_run (GetMeResult.err "unauthorized") netBeh = [] :=
  (test_bot_preflight (GetMeResult.err "unauthorized") netBeh
    "unauthorized" "somonbot").2.2.1 rfl

/-- C9 (counterexample): when the storage-close step raises, the error is
caught and logged, but `bot.close()` is never invoked — refuting the claim
that the BotClient close is still performed after a failing earlier step. -/
theorem shutdown_counterexample :
    (on_shutdown ⟨true, false, false⟩).2 = true ∧
    ShutdownStep.botClose ∉ (on_shutdown ⟨true, false, false⟩).1 := by
  constructor
  · rfl
  · decide

/-- C9 (amended): the shutdown sequence invokes storage close, storage
wait-closed and bot close in order inside one guard; any error from any
step is caught and logged and never propagated, but the first error aborts
the remaining steps: the bot close runs exactly when neither storage step
raised. -/
theorem on_shutdown_amended (sb : ShutdownBehavior) :
    ((on_shutdown sb).1 = [ShutdownStep.storageClose] ∨
     (on_shutdown sb).1 =
       [ShutdownStep.storageClose, ShutdownStep.storageWaitClosed] ∨
     (on_shutdown sb).1 =
       [ShutdownStep.storageClose, ShutdownStep.storageWaitClosed,
         ShutdownStep.botClose]) ∧
    (on_shutdown sb).2 =
      (sb.storageCloseRaises || sb.waitClosedRaises || sb.botCloseRaises) ∧
    ((sb.storageCloseRaises || sb.waitClosedRaises) = true →
      ShutdownStep.botClose ∉ (on_shutdown sb).1) ∧
    ((sb.storageCloseRaises || sb.waitClosedRaises) = false →
      ShutdownStep.botClose ∈ (on_shutdown sb).1) := by
  obtain ⟨a, c, d⟩ := sb
  cases a <;> cases c <;> cases d <;> decide

/-- C9 (witness): with no failing step the bot close is reached. -/
theorem on_shutdown_amended_witness :
    ShutdownStep.botClose ∈ (on_shutdown ⟨false, false, true⟩).1 :=
  (on_shutdown_amended ⟨false, false, true⟩).2.2.2 rfl

lemma runAux_counts (b : Behavior) (mr rd : Nat) :
    ∀ (k attempt : Nat),
      (runAux b mr rd attempt k).1.countP isLoad ≤ k ∧
      (runAux b mr rd attempt k).1.countP isPoll ≤ k := by
  intro k
  induction k with
  | zero =>
    intro attempt
    simp [runAux]
  | succ k ih =>
    intro attempt
    have h1 := (ih (attempt + 1)).1
    have h2 := (ih (attempt + 1)).2
    by_cases hl : (b attempt).loadOk = false
    · by_cases hlast : mr - 1 ≤ attempt
      · rw [runAux_load_fail_last b mr rd attempt k hl hlast]
        constructor <;> simp [List.countP_cons, isLoad, isPoll]
      · rw [runAux_load_fail_step b mr rd attempt k hl hlast]
        constructor <;> simp [List.countP_cons, isLoad, isPoll] <;> omega
    · have hl' : (b attempt).loadOk = true := by
        revert hl
        cases (b attempt).loadOk <;> simp
      cases hp : (b attempt).poll with
      | ok =>
        rw [runAux_poll_ok b mr rd attempt k hl' hp]
        constructor <;> simp [List.countP_cons, isLoad, isPoll]
      | interrupt =>
        rw [runAux_poll_interrupt b mr rd attempt k hl' hp]
        constructor <;> simp [List.countP_cons, isLoad, isPoll]
      | sysExit =>
        rw [runAux_poll_sysExit b mr rd attempt k hl' hp]
        constructor <;> simp [List.countP_cons, isLoad, isPoll]
      | exn ty msg =>
        by_cases hc : classifyError ty msg = FailureClass.AuthFailure
        · rw [runAux_auth b mr rd attempt k ty msg hl' hp hc]
          constructor <;> simp [List.countP_cons, isLoad, isPoll]
        · by_cases hlt : attempt < mr - 1
          · rw [runAux_retry_step b mr rd attempt k ty msg hl' hp hc hlt]
            constructor <;> simp [List.countP_cons, isLoad, isPoll] <;> omega
          · rw [runAux_retry_last b mr rd attempt k ty msg hl' hp hc hlt]
            constructor <;> simp [List.countP_cons, isLoad, isPoll]

/-- C10: for every collaborator behavior the run terminates and is bounded
by the hard-coded `max_retries = 10` loop iterations: the trace of a run
contains at most ten handler-load calls and at most ten polling starts. -/
theorem start_bot_bounded (b : Behavior) :
    (start_bot b).1.countP isLoad ≤ 10 ∧
    (start_bot b).1.countP isPoll ≤ 10 :=
  runAux_counts b 10 10 10 0
